import Mathlib

/-!
Verification of the `manage_gameobject` gateway
(`src/Python/tools/manage_gameobject.py`).

The file shallowly embeds the body of the Python function
`manage_gameobject`: its argument surface (with the Python default values),
the `None`-pruning dict comprehension, the prefab-path derivation and
validation block, the `params.pop("prefab_folder", None)` call, and the
normalization of the transport's response into the uniform
success/failure envelope.  The transport (`get_unity_connection()
.send_command`) is external to the file under `src/` and is modelled as an
arbitrary function from payloads to either a host response or a raised
exception (carried as its `str(e)` detail).
-/

/-- A Python value as it occurs in this gateway's payloads and responses:
strings, integers, booleans, lists and string-keyed dicts.  Python `None`
is not a constructor: at the argument level absence is `Option.none`,
which mirrors the fact that the pruning comprehension removes exactly the
`None`-valued entries. -/
inductive PyVal where
  | str (s : String)
  | int (n : Int)
  | bool (b : Bool)
  | list (xs : List PyVal)
  | dict (xs : List (String × PyVal))

/-- Python truthiness of a value (`bool(v)`): empty string, zero, `False`,
empty list and empty dict are falsy. -/
def pyTruthyVal : PyVal → Bool
  | .str s => !(s == "")
  | .int n => !(n == 0)
  | .bool b => b
  | .list xs => !xs.isEmpty
  | .dict xs => !xs.isEmpty

/-- Truthiness of `dict.get(k)`: `None` (key absent) is falsy, otherwise
the value's own truthiness. -/
def pyTruthy : Option PyVal → Bool
  | Option.none => false
  | some v => pyTruthyVal v

/-- Python string conversion of a value, as used when interpolating the
stored name into the derived prefab path and when lowercasing the stored
prefab path.  Only the `str` case is reachable at those two use sites:
`name` and `prefab_path` are typed `Optional[str]` in the Python
signature, so the stored values are strings. -/
def pyStr : PyVal → String
  | .str s => s
  | .int n => toString n
  | .bool b => cond b "True" "False"
  | .list _ => "<list>"
  | .dict _ => "<dict>"

/-- f-string rendering of an `Optional[str]` local variable: Python
renders `None` as the four characters `None`. -/
def pyFormatOptStr : Option String → String
  | Option.none => "None"
  | some s => s

/-- `s.replace("\\", "/")`: for a one-character pattern and a
one-character replacement Python's `str.replace` is a character-wise
map. -/
def replaceBackslashes (s : String) : String :=
  ⟨s.data.map fun c => if c == '\\' then '/' else c⟩

/-- `s.lower()`: character-wise ASCII lowercasing (`Char.toLower`). -/
def pyLower (s : String) : String :=
  ⟨s.data.map Char.toLower⟩

/-- `s.endswith(t)`. -/
def pyEndsWith (s t : String) : Bool :=
  t.data.isSuffixOf s.data

/-- The argument surface of `manage_gameobject`, with the Python default
values: most parameters default to `None` (here `Option.none`), while
`save_as_prefab`, `find_all`, `search_in_children` and `search_inactive`
default to `False` and `prefab_folder` defaults to `"Assets/Prefabs"`. -/
structure Args where
  action : String
  target : Option PyVal := Option.none
  search_method : Option String := Option.none
  name : Option String := Option.none
  tag : Option String := Option.none
  parent : Option PyVal := Option.none
  position : Option PyVal := Option.none
  rotation : Option PyVal := Option.none
  scale : Option PyVal := Option.none
  components_to_add : Option PyVal := Option.none
  primitive_type : Option String := Option.none
  save_as_prefab : Option Bool := some false
  prefab_path : Option String := Option.none
  prefab_folder : Option String := some "Assets/Prefabs"
  new_name : Option String := Option.none
  new_parent : Option PyVal := Option.none
  set_active : Option Bool := Option.none
  new_tag : Option String := Option.none
  new_layer : Option PyVal := Option.none
  components_to_remove : Option PyVal := Option.none
  component_properties : Option PyVal := Option.none
  search_term : Option String := Option.none
  find_all : Option Bool := some false
  search_in_children : Option Bool := some false
  search_inactive : Option Bool := some false
  component_name : Option String := Option.none

/-- The `params = { "action": action, ... }` dict literal, in source
order, before pruning: each wire field name paired with the (possibly
`None`) argument value. -/
def rawParams (a : Args) : List (String × Option PyVal) :=
  [("action", some (.str a.action)),
   ("target", a.target),
   ("searchMethod", a.search_method.map .str),
   ("name", a.name.map .str),
   ("tag", a.tag.map .str),
   ("parent", a.parent),
   ("position", a.position),
   ("rotation", a.rotation),
   ("scale", a.scale),
   ("componentsToAdd", a.components_to_add),
   ("primitiveType", a.primitive_type.map .str),
   ("saveAsPrefab", a.save_as_prefab.map .bool),
   ("prefabPath", a.prefab_path.map .str),
   ("prefabFolder", a.prefab_folder.map .str),
   ("newName", a.new_name.map .str),
   ("newParent", a.new_parent),
   ("setActive", a.set_active.map .bool),
   ("newTag", a.new_tag.map .str),
   ("newLayer", a.new_layer),
   ("componentsToRemove", a.components_to_remove),
   ("componentProperties", a.component_properties),
   ("searchTerm", a.search_term.map .str),
   ("findAll", a.find_all.map .bool),
   ("searchInChildren", a.search_in_children.map .bool),
   ("searchInactive", a.search_inactive.map .bool),
   ("componentName", a.component_name.map .str)]

/-- `{k: v for k, v in params.items() if v is not None}` on an arbitrary
entry list: keep exactly the entries whose value is not `None`. -/
def pruneEntries (l : List (String × Option PyVal)) : List (String × PyVal) :=
  l.filterMap fun kv => kv.2.map fun v => (kv.1, v)

/-- `params = {k: v for k, v in params.items() if v is not None}`. -/
def prunedParams (a : Args) : List (String × PyVal) :=
  pruneEntries (rawParams a)

/-- `params.get(k)` on an insertion-ordered dict represented as an
association list: the first entry with key `k`, or `None`. -/
def getVal (ps : List (String × PyVal)) (k : String) : Option PyVal :=
  (ps.find? fun kv => kv.1 == k).map fun kv => kv.2

/-- `params[k] = v` on an insertion-ordered dict: overwrite in place if
the key exists, otherwise append at the end. -/
def setVal : List (String × PyVal) → String → PyVal → List (String × PyVal)
  | [], k, v => [(k, v)]
  | kv :: rest, k, v =>
      if kv.1 == k then (k, v) :: rest else kv :: setVal rest k v

/-- `params.pop(k, None)`: remove the entry with key `k` if present. -/
def popKey (ps : List (String × PyVal)) (k : String) : List (String × PyVal) :=
  ps.filter fun kv => !(kv.1 == k)

/-- Lines 66–110 of the source: build `params`, prune `None` values, run
the prefab-path block (which may `return` a local failure envelope before
any transport call), then `params.pop("prefab_folder", None)`.  An
`Except.error` is one of the two early `return {"success": False, ...}`
statements; its string is the envelope's message. -/
def normalizePayload (a : Args) : Except String (List (String × PyVal)) :=
  let params := prunedParams a
  let afterPrefab : Except String (List (String × PyVal)) :=
    if a.action == "create" && pyTruthy (getVal params "saveAsPrefab") then
      match getVal params "prefabPath" with
      | Option.none =>
        match getVal params "name" with
        | Option.none =>
            .error "Cannot create default prefab path: 'name' parameter is missing."
        | some nv =>
            if pyTruthyVal nv then
              let constructed_path :=
                pyFormatOptStr a.prefab_folder ++ "/" ++ pyStr nv ++ ".prefab"
              .ok (setVal params "prefabPath" (.str (replaceBackslashes constructed_path)))
            else
              .error "Cannot create default prefab path: 'name' parameter is missing."
      | some pv =>
        if pyEndsWith (pyLower (pyStr pv)) ".prefab" then
          .ok params
        else
          .error ("Invalid prefab_path: '" ++ pyStr pv ++ "' must end with .prefab")
    else
      .ok params
  match afterPrefab with
  | .error msg => .error msg
  | .ok ps => .ok (popKey ps "prefab_folder")

/-- The host's reply as read by the source: `response.get("success")`,
`response.get("message", ...)`, `response.get("error", ...)`,
`response.get("data")`.  Each field is `Option.none` when the key is
absent from the response dict. -/
structure HostResponse where
  success : Option PyVal := Option.none
  message : Option PyVal := Option.none
  error : Option PyVal := Option.none
  data : Option PyVal := Option.none

/-- The dict returned to the caller.  `data = Option.none` means the
returned dict has no `"data"` key at all; `data = some d` means the key
is present with value `d`, where `d = Option.none` is Python `None`
(as produced by `response.get("data")` on a response without data). -/
structure ResultEnv where
  success : Bool
  message : PyVal
  data : Option (Option PyVal) := Option.none

/-- The whole `manage_gameobject` body: normalize the request; on a local
validation failure return its envelope without touching the transport;
otherwise call the transport with the payload.  A transport exception
(`Except.error e`) is caught by the outer `except` clause and converted to
`{"success": False, "message": f"Python error managing GameObject: {str(e)}"}`.
A host response is folded into the success or failure envelope exactly as
lines 120–123 of the source do. -/
def manage_gameobject
    (transport : List (String × PyVal) → Except String HostResponse)
    (a : Args) : ResultEnv :=
  match normalizePayload a with
  | .error msg => { success := false, message := .str msg }
  | .ok params =>
    match transport params with
    | .error e =>
        { success := false, message := .str ("Python error managing GameObject: " ++ e) }
    | .ok response =>
        if pyTruthy response.success then
          { success := true,
            message := response.message.getD (.str "GameObject operation successful."),
            data := some response.data }
        else
          { success := false,
            message := response.error.getD
              (.str "An unknown error occurred during GameObject management.") }

/-! ### Association-list lemmas -/

theorem getVal_cons (x : String × PyVal) (xs : List (String × PyVal)) (k : String) :
    getVal (x :: xs) k = if x.1 == k then some x.2 else getVal xs k := by
  cases h : x.1 == k <;> simp [getVal, List.find?_cons, h]

theorem getVal_pruneEntries_of_not_mem (l : List (String × Option PyVal)) (k : String)
    (h : ∀ kv ∈ l, kv.1 ≠ k) :
    getVal (pruneEntries l) k = Option.none := by
  induction l with
  | nil => rfl
  | cons kv rest ih =>
    have hk : kv.1 ≠ k := h kv (List.mem_cons_self kv rest)
    have hrest : ∀ p ∈ rest, p.1 ≠ k := fun p hp => h p (List.mem_cons_of_mem kv hp)
    cases hkv : kv.2 with
    | none => simpa [pruneEntries, List.filterMap_cons, hkv] using ih hrest
    | some v =>
      have hbeq : (kv.1 == k) = false := by simpa using hk
      simpa [pruneEntries, List.filterMap_cons, hkv, getVal_cons, hbeq] using ih hrest

theorem getVal_pruneEntries (l : List (String × Option PyVal)) (k : String)
    (h : (l.map Prod.fst).Nodup) :
    getVal (pruneEntries l) k = ((l.find? fun kv => kv.1 == k).bind Prod.snd) := by
  induction l with
  | nil => rfl
  | cons kv rest ih =>
    rw [List.map_cons, List.nodup_cons] at h
    obtain ⟨hk1, hnd⟩ := h
    cases heq : kv.1 == k with
    | true =>
      have hk : kv.1 = k := by simpa using heq
      cases hkv : kv.2 with
      | none =>
        have hnone : getVal (pruneEntries rest) k = Option.none := by
          refine getVal_pruneEntries_of_not_mem rest k fun p hp hpk => hk1 ?_
          rw [hk, ← hpk]
          exact List.mem_map_of_mem Prod.fst hp
        simp only [pruneEntries, List.filterMap_cons, hkv, List.find?_cons, heq, cond_true,
          Option.map_none', Option.bind_eq_bind, Option.some_bind]
        exact hnone
      | some v =>
        simp [pruneEntries, List.filterMap_cons, hkv, List.find?_cons, heq, getVal_cons]
    | false =>
      cases hkv : kv.2 with
      | none => simpa [pruneEntries, List.filterMap_cons, hkv, List.find?_cons, heq] using ih hnd
      | some v =>
        simpa [pruneEntries, List.filterMap_cons, hkv, List.find?_cons, heq, getVal_cons] using ih hnd

theorem rawParams_keys (a : Args) :
    (rawParams a).map Prod.fst =
      ["action", "target", "searchMethod", "name", "tag", "parent", "position",
       "rotation", "scale", "componentsToAdd", "primitiveType", "saveAsPrefab",
       "prefabPath", "prefabFolder", "newName", "newParent", "setActive",
       "newTag", "newLayer", "componentsToRemove", "componentProperties",
       "searchTerm", "findAll", "searchInChildren", "searchInactive",
       "componentName"] := rfl

theorem rawParams_keys_nodup (a : Args) : ((rawParams a).map Prod.fst).Nodup := by
  rw [rawParams_keys]
  decide

theorem getVal_prunedParams (a : Args) (k : String) :
    getVal (prunedParams a) k = ((rawParams a).find? fun kv => kv.1 == k).bind Prod.snd :=
  getVal_pruneEntries _ _ (rawParams_keys_nodup a)

theorem getVal_prunedParams_saveAsPrefab (a : Args) :
    getVal (prunedParams a) "saveAsPrefab" = a.save_as_prefab.map .bool := by
  rw [getVal_prunedParams]
  rfl

theorem getVal_prunedParams_prefabPath (a : Args) :
    getVal (prunedParams a) "prefabPath" = a.prefab_path.map .str := by
  rw [getVal_prunedParams]
  rfl

theorem getVal_prunedParams_name (a : Args) :
    getVal (prunedParams a) "name" = a.name.map .str := by
  rw [getVal_prunedParams]
  rfl

theorem getVal_prunedParams_prefabFolder (a : Args) :
    getVal (prunedParams a) "prefabFolder" = a.prefab_folder.map .str := by
  rw [getVal_prunedParams]
  rfl

theorem getVal_setVal_self (ps : List (String × PyVal)) (k : String) (v : PyVal) :
    getVal (setVal ps k v) k = some v := by
  induction ps with
  | nil => simp [setVal, getVal_cons]
  | cons kv rest ih =>
    cases h : kv.1 == k with
    | true => simp [setVal, h, getVal_cons]
    | false => simp [setVal, h, getVal_cons, ih]

theorem getVal_popKey_ne (ps : List (String × PyVal)) (k k' : String) (h : ¬(k = k')) :
    getVal (popKey ps k') k = getVal ps k := by
  induction ps with
  | nil => rfl
  | cons kv rest ih =>
    cases hc : kv.1 == k' with
    | true =>
      have hk : kv.1 = k' := by simpa using hc
      have hbeq : (kv.1 == k) = false := by simp [hk]; intro he; exact h he.symm
      simp [popKey, List.filter_cons, hc, getVal_cons, hbeq, ← ih]
    | false =>
      cases hd : kv.1 == k with
      | true => simp [popKey, List.filter_cons, hc, getVal_cons, hd]
      | false =>
        simpa [popKey, List.filter_cons, hc, getVal_cons, hd] using ih

/-! ### Claim theorems -/

/-- C1 (counterexample).  The claim says a field the caller never
mentioned does not appear in the payload.  False: in the invocation
below the caller supplies only `action = "delete"`, yet the payload
handed to the transport contains the `saveAsPrefab` field (with the
Python default value `False`), because the pruning predicate drops only
`None` values and `save_as_prefab` defaults to `False`, not `None`. -/
theorem unmentioned_field_in_payload :
    (normalizePayload { action := "delete" }).toOption.map (fun ps => getVal ps "saveAsPrefab")
      = some (some (.bool false)) := rfl

/-- C1 (amended).  The pruning stage keeps exactly the fields whose
supplied-or-default value is not `None`: an entry `(k, v)` survives
pruning if and only if the pre-pruning parameter dict maps `k` to the
non-`None` value `v`.  In particular an explicitly supplied falsy value
(`False`, `0`, empty list) survives, a `None`-valued (absent) field is
dropped, and the parameters with non-`None` defaults appear even when
the caller never mentioned them. -/
theorem pruning_keeps_exactly_present (a : Args) (k : String) (v : PyVal) :
    (k, v) ∈ prunedParams a ↔ (k, some v) ∈ rawParams a := by
  constructor
  · intro h
    rw [prunedParams, pruneEntries, List.mem_filterMap] at h
    obtain ⟨⟨k1, o1⟩, hmem, heq⟩ := h
    cases o1 with
    | none => simp at heq
    | some w =>
      rw [Option.map_some'] at heq
      cases heq
      exact hmem
  · intro h
    rw [prunedParams, pruneEntries, List.mem_filterMap]
    exact ⟨(k, some v), h, rfl⟩

/-- C2.  The source's comment says the folder field must not be sent
once a prefab path has been resolved, but line 110 pops the key
`prefab_folder` while the params dict uses the key `prefabFolder`, so
the pop never removes anything.  At the spec's own example input
(create, save_as_prefab true, name Cube, everything else default) the
payload handed to the transport still contains
`prefabFolder = "Assets/Prefabs"` alongside the resolved
`prefabPath = "Assets/Prefabs/Cube.prefab"`. -/
theorem prefabFolder_sent_despite_comment :
    (normalizePayload { action := "create", save_as_prefab := some true,
                        name := some "Cube" }).toOption.map (fun ps => getVal ps "prefabFolder")
      = some (some (.str "Assets/Prefabs"))
    ∧ (normalizePayload { action := "create", save_as_prefab := some true,
                          name := some "Cube" }).toOption.map (fun ps => getVal ps "prefabPath")
      = some (some (.str "Assets/Prefabs/Cube.prefab")) := ⟨rfl, rfl⟩

/-- C3.  For action create with save_as_prefab explicitly true, no
prefab_path, and a non-empty name, the payload's prefabPath is the
folder (caller-supplied or the default, which is `"Assets/Prefabs"`)
joined with `/`, the name and the `.prefab` extension, with every
backslash replaced by a forward slash. -/
theorem derived_prefabPath (a : Args) (folder nm : String)
    (ha : a.action = "create") (hs : a.save_as_prefab = some true)
    (hp : a.prefab_path = Option.none) (hn : a.name = some nm) (hnm : ¬(nm = ""))
    (hf : a.prefab_folder = some folder) :
    (normalizePayload a).toOption.map (fun ps => getVal ps "prefabPath")
      = some (some (.str (replaceBackslashes (folder ++ "/" ++ nm ++ ".prefab")))) := by
  have h1 : getVal (prunedParams a) "saveAsPrefab" = some (.bool true) := by
    rw [getVal_prunedParams_saveAsPrefab, hs]; rfl
  have h2 : getVal (prunedParams a) "prefabPath" = Option.none := by
    rw [getVal_prunedParams_prefabPath, hp]; rfl
  have h3 : getVal (prunedParams a) "name" = some (.str nm) := by
    rw [getVal_prunedParams_name, hn]; rfl
  have hbeq : (nm == "") = false := by simpa using hnm
  simp only [normalizePayload, h1, h2, h3, ha, hf, pyTruthy, pyTruthyVal, pyStr,
    pyFormatOptStr, hbeq, Bool.not_false, beq_self_eq_true, Bool.and_self, if_true,
    Except.toOption, Option.map_some']
  rw [getVal_popKey_ne _ _ _ (by decide), getVal_setVal_self]

/-- C3 (witness).  The spec's worked example: folder `Assets\Custom`,
name `Cube` give prefabPath `Assets/Custom/Cube.prefab` with the
backslash normalized. -/
theorem derived_prefabPath_witness :
    (normalizePayload { action := "create", save_as_prefab := some true, name := some "Cube",
                        prefab_folder := some "Assets\\Custom" }).toOption.map (fun ps => getVal ps "prefabPath")
      = some (some (.str "Assets/Custom/Cube.prefab")) :=
  derived_prefabPath
    { action := "create", save_as_prefab := some true, name := some "Cube",
      prefab_folder := some "Assets\\Custom" }
    "Assets\\Custom" "Cube" rfl rfl rfl rfl (by decide) rfl

/-- C4.  For action create with save_as_prefab explicitly true, no
prefab_path, and the name absent or empty, the operation fails locally
with exactly the quoted message, and the result is the same for every
transport — the transport function is never consulted, since
normalization already returns the failure envelope. -/
theorem missing_name_local_failure (a : Args)
    (t : List (String × PyVal) → Except String HostResponse)
    (ha : a.action = "create") (hs : a.save_as_prefab = some true)
    (hp : a.prefab_path = Option.none)
    (hn : a.name = Option.none ∨ a.name = some "") :
    manage_gameobject t a =
      { success := false,
        message := .str "Cannot create default prefab path: 'name' parameter is missing." } := by
  have h1 : getVal (prunedParams a) "saveAsPrefab" = some (.bool true) := by
    rw [getVal_prunedParams_saveAsPrefab, hs]; rfl
  have h2 : getVal (prunedParams a) "prefabPath" = Option.none := by
    rw [getVal_prunedParams_prefabPath, hp]; rfl
  have herr : normalizePayload a =
      .error "Cannot create default prefab path: 'name' parameter is missing." := by
    rcases hn with hn | hn
    · have h3 : getVal (prunedParams a) "name" = Option.none := by
        rw [getVal_prunedParams_name, hn]; rfl
      simp only [normalizePayload, h1, h2, h3, ha, pyTruthy, pyTruthyVal,
        beq_self_eq_true, Bool.and_self, if_true]
    · have h3 : getVal (prunedParams a) "name" = some (.str "") := by
        rw [getVal_prunedParams_name, hn]; rfl
      simp only [normalizePayload, h1, h2, h3, ha, pyTruthy, pyTruthyVal,
        beq_self_eq_true, Bool.and_self, if_true]
      rfl
  simp only [manage_gameobject, herr]

/-- C4 (witness).  Create with save_as_prefab true and no name fails
with the exact message, independently of the transport supplied. -/
theorem missing_name_witness :
    manage_gameobject (fun _ => .ok {}) { action := "create", save_as_prefab := some true } =
      { success := false,
        message := .str "Cannot create default prefab path: 'name' parameter is missing." } :=
  missing_name_local_failure { action := "create", save_as_prefab := some true }
    (fun _ => .ok {}) rfl rfl rfl (Or.inl rfl)

/-- C5.  For action create with save_as_prefab explicitly true and an
explicit prefab_path whose lowercasing does not end in `.prefab`, the
operation fails locally with a message naming the offending path and the
required suffix, and the result is the same for every transport. -/
theorem invalid_suffix_local_failure (a : Args) (p : String)
    (t : List (String × PyVal) → Except String HostResponse)
    (ha : a.action = "create") (hs : a.save_as_prefab = some true)
    (hp : a.prefab_path = some p)
    (hbad : pyEndsWith (pyLower p) ".prefab" = false) :
    manage_gameobject t a =
      { success := false,
        message := .str ("Invalid prefab_path: '" ++ p ++ "' must end with .prefab") } := by
  have h1 : getVal (prunedParams a) "saveAsPrefab" = some (.bool true) := by
    rw [getVal_prunedParams_saveAsPrefab, hs]; rfl
  have h2 : getVal (prunedParams a) "prefabPath" = some (.str p) := by
    rw [getVal_prunedParams_prefabPath, hp]; rfl
  have herr : normalizePayload a =
      .error ("Invalid prefab_path: '" ++ p ++ "' must end with .prefab") := by
    simp only [normalizePayload, h1, h2, ha, pyTruthy, pyTruthyVal, pyStr, hbad,
      beq_self_eq_true, Bool.and_self, if_true, Bool.false_eq_true, if_false]
  simp only [manage_gameobject, herr]

/-- C5 (witness).  The spec's example `Assets/Foo.txt` is rejected with
the message naming the path and the `.prefab` suffix. -/
theorem invalid_suffix_witness :
    manage_gameobject (fun _ => .ok {})
        { action := "create", save_as_prefab := some true,
          prefab_path := some "Assets/Foo.txt" } =
      { success := false,
        message := .str "Invalid prefab_path: 'Assets/Foo.txt' must end with .prefab" } :=
  invalid_suffix_local_failure
    { action := "create", save_as_prefab := some true, prefab_path := some "Assets/Foo.txt" }
    "Assets/Foo.txt" (fun _ => .ok {}) rfl rfl rfl (by rfl)

/-- C6 (counterexample).  The claim says the data entry appears only if
the host response carried a data field.  False: for a host response
carrying only a truthy success flag, the returned envelope still has a
data key, holding Python `None` (here `some Option.none`, where the
outer `some` means the key is present), because the source always
includes the data key with the value of `response.get("data")`. -/
theorem success_data_key_always_present :
    manage_gameobject (fun _ => .ok { success := some (.bool true) }) { action := "find" } =
      { success := true, message := .str "GameObject operation successful.",
        data := some Option.none } := rfl

/-- C6 (amended).  For every host response with a truthy success
indicator, the gateway returns success true, the host's message field
(defaulting to the generic success string when absent), and a data entry
that is always present, holding the host's data field or `None` when the
host carried none. -/
theorem success_envelope_shape (a : Args) (ps : List (String × PyVal)) (resp : HostResponse)
    (hn : normalizePayload a = .ok ps) (hs : pyTruthy resp.success = true) :
    manage_gameobject (fun _ => .ok resp) a =
      { success := true,
        message := resp.message.getD (.str "GameObject operation successful."),
        data := some resp.data } := by
  simp only [manage_gameobject, hn, hs, if_true]

/-- C6 (witness).  The spec's example response with message ok and data
mapping id to 5 is passed through unchanged. -/
theorem success_envelope_witness :
    manage_gameobject
        (fun _ => .ok { success := some (.bool true), message := some (.str "ok"),
                        data := some (.dict [("id", .int 5)]) })
        { action := "find" } =
      { success := true, message := .str "ok",
        data := some (some (.dict [("id", .int 5)])) } :=
  success_envelope_shape { action := "find" }
    [("action", .str "find"), ("saveAsPrefab", .bool false),
     ("prefabFolder", .str "Assets/Prefabs"), ("findAll", .bool false),
     ("searchInChildren", .bool false), ("searchInactive", .bool false)]
    { success := some (.bool true), message := some (.str "ok"),
      data := some (.dict [("id", .int 5)]) }
    rfl rfl

/-- C7.  For every host response whose success indicator is falsy (false
or absent), the gateway returns success false with the host's error
field (defaulting to the generic failure string when absent) and no data
entry (the envelope's data component defaults to absent). -/
theorem failure_envelope_shape (a : Args) (ps : List (String × PyVal)) (resp : HostResponse)
    (hn : normalizePayload a = .ok ps) (hs : pyTruthy resp.success = false) :
    manage_gameobject (fun _ => .ok resp) a =
      { success := false,
        message := resp.error.getD
          (.str "An unknown error occurred during GameObject management.") } := by
  simp only [manage_gameobject, hn, hs, Bool.false_eq_true, if_false]

/-- C7 (witness).  The spec's example: a failed response with error
`not found` yields the failure envelope with that message and no data
key. -/
theorem failure_envelope_witness :
    manage_gameobject
        (fun _ => .ok { success := some (.bool false), error := some (.str "not found") })
        { action := "find" } =
      { success := false, message := .str "not found" } :=
  failure_envelope_shape { action := "find" }
    [("action", .str "find"), ("saveAsPrefab", .bool false),
     ("prefabFolder", .str "Assets/Prefabs"), ("findAll", .bool false),
     ("searchInChildren", .bool false), ("searchInactive", .bool false)]
    { success := some (.bool false), error := some (.str "not found") }
    rfl rfl

/-- C8.  A fault raised by the transport (modelled as the transport
returning an error with the exception's string detail) is caught at the
operation's outer boundary and converted into a failure envelope whose
message is the diagnostic prefix followed by the fault detail; the
function is total, so every invocation returns a Result Envelope and no
fault propagates. -/
theorem exception_converted (a : Args) (ps : List (String × PyVal)) (e : String)
    (hn : normalizePayload a = .ok ps) :
    manage_gameobject (fun _ => .error e) a =
      { success := false,
        message := .str ("Python error managing GameObject: " ++ e) } := by
  simp only [manage_gameobject, hn]

/-- C8 (witness).  A transport raising `Connection refused` yields the
failure envelope with the diagnostic prefix and the detail. -/
theorem exception_converted_witness :
    manage_gameobject (fun _ => .error "Connection refused") { action := "find" } =
      { success := false,
        message := .str "Python error managing GameObject: Connection refused" } :=
  exception_converted { action := "find" }
    [("action", .str "find"), ("saveAsPrefab", .bool false),
     ("prefabFolder", .str "Assets/Prefabs"), ("findAll", .bool false),
     ("searchInChildren", .bool false), ("searchInactive", .bool false)]
    "Connection refused" rfl

/-- C9.  The normalizer and the whole operation are pure functions of
their input: two invocations with identical parameter sets produce
identical payloads and identical outcomes.  The embedded source lines
read no mutable state outside the function's own locals, so the
embedding as a pure function is faithful and determinism holds. -/
theorem normalizer_pure (t : List (String × PyVal) → Except String HostResponse)
    (a b : Args) (h : a = b) :
    normalizePayload a = normalizePayload b ∧ manage_gameobject t a = manage_gameobject t b := by
  subst h
  exact ⟨rfl, rfl⟩

/-- C9 (witness).  Two runs at the same concrete input agree. -/
theorem normalizer_pure_witness :
    normalizePayload { action := "find" } = normalizePayload { action := "find" } ∧
      manage_gameobject (fun _ => .error "x") { action := "find" } =
        manage_gameobject (fun _ => .error "x") { action := "find" } :=
  normalizer_pure (fun _ => .error "x") { action := "find" } { action := "find" } rfl

/-- C10.  For action create with save_as_prefab explicitly true and an
explicitly supplied prefab_path that passes the case-insensitive
`.prefab` suffix check, the payload's prefabPath is the supplied string
verbatim: the backslash normalization is applied only on the derivation
branch, never to an explicit path. -/
theorem explicit_prefabPath_verbatim (a : Args) (p : String)
    (ha : a.action = "create") (hs : a.save_as_prefab = some true)
    (hp : a.prefab_path = some p)
    (hgood : pyEndsWith (pyLower p) ".prefab" = true) :
    (normalizePayload a).toOption.map (fun ps => getVal ps "prefabPath")
      = some (some (.str p)) := by
  have h1 : getVal (prunedParams a) "saveAsPrefab" = some (.bool true) := by
    rw [getVal_prunedParams_saveAsPrefab, hs]; rfl
  have h2 : getVal (prunedParams a) "prefabPath" = some (.str p) := by
    rw [getVal_prunedParams_prefabPath, hp]; rfl
  simp only [normalizePayload, h1, h2, ha, pyTruthy, pyTruthyVal, pyStr, hgood,
    beq_self_eq_true, Bool.and_self, if_true, Except.toOption, Option.map_some']
  rw [getVal_popKey_ne _ _ _ (by decide), h2]

/-- C10 (witness).  A path with backslashes and an upper-case extension
is forwarded exactly as supplied. -/
theorem explicit_prefabPath_verbatim_witness :
    (normalizePayload { action := "create", save_as_prefab := some true,
                        prefab_path := some "Assets\\Sub\\Thing.PREFAB" }).toOption.map
        (fun ps => getVal ps "prefabPath")
      = some (some (.str "Assets\\Sub\\Thing.PREFAB")) :=
  explicit_prefabPath_verbatim
    { action := "create", save_as_prefab := some true,
      prefab_path := some "Assets\\Sub\\Thing.PREFAB" }
    "Assets\\Sub\\Thing.PREFAB" rfl rfl rfl (by rfl)
